import Mathlib

/-!
Shallow embedding of the VeloData CSV-export engine
(`apps/dashboard/app/actions/export.ts`): the pricing engine, the
condition-code remapping, the item-specifics color inference, the CSV
serializer, the row mappers and the export orchestrators, together with
theorems settling the frozen claims about them.

JavaScript numbers are modelled as rationals (`ℚ`), strings as Lean
`String` (character-wise; `toLowerCase` is modelled on the ASCII range),
and `string | undefined` values as `Option String`.  JavaScript
truthiness of strings (where `""` is falsy) is modelled explicitly.
-/

namespace VeloData

/-- JavaScript `a || b` for an optional string `a`: the default `b` is
used when `a` is `undefined` or the empty string (both are falsy). -/
def jsOrStr (a : Option String) (b : String) : String :=
  match a with
  | none => b
  | some s => if s = "" then b else s

/-- JavaScript `s.includes(pat)`: substring containment. -/
def jsIncludes (s pat : String) : Bool :=
  decide (pat.toList <:+: s.toList)

/-- JavaScript `s.toLowerCase()`, modelled character-wise on ASCII. -/
def jsToLower (s : String) : String :=
  String.mk (s.toList.map Char.toLower)

/-- JavaScript `s.substring(0, n)` (truncation to at most `n` characters). -/
def jsSubstringTo (s : String) (n : Nat) : String :=
  String.mk (s.toList.take n)

/-! ## Pricing engine (`export.ts` lines 450–499 and 1110–1133) -/

/-- eBay final value fee: `const EBAY_FINAL_VALUE_FEE = 0.1325`. -/
def EBAY_FINAL_VALUE_FEE : ℚ := 1325 / 10000

/-- eBay payment processing percentage: `0.0235`. -/
def EBAY_PAYMENT_PROCESSING_PERCENT : ℚ := 235 / 10000

/-- eBay payment processing flat fee: `0.30`. -/
def EBAY_PAYMENT_PROCESSING_FIXED : ℚ := 30 / 100

/-- eBay international (cross-border) fee: `0.0165`. -/
def EBAY_INTERNATIONAL_FEE : ℚ := 165 / 10000

/-- Fixed JPY→USD conversion rate: `const JPY_TO_USD_RATE = 0.0067`. -/
def JPY_TO_USD_RATE : ℚ := 67 / 10000

/-- The total percentage fee summed inside `calculateSalePriceWithMargin`:
`EBAY_FINAL_VALUE_FEE + EBAY_PAYMENT_PROCESSING_PERCENT + EBAY_INTERNATIONAL_FEE`. -/
def eBayTotalFeePercent : ℚ :=
  EBAY_FINAL_VALUE_FEE + EBAY_PAYMENT_PROCESSING_PERCENT + EBAY_INTERNATIONAL_FEE

/-- Shopify payment fee percentage (`0.029`, local constant of
`calculateShopifyPrice`). -/
def SHOPIFY_PAYMENT_FEE_PERCENT : ℚ := 29 / 1000

/-- Shopify payment flat fee (`0.30`, local constant of
`calculateShopifyPrice`). -/
def SHOPIFY_PAYMENT_FEE_FIXED : ℚ := 30 / 100

/-- Per-niche shipping cost table `SHIPPING_COSTS_BY_NICHE`. -/
def SHIPPING_COSTS_BY_NICHE (niche : String) : Option ℚ :=
  if niche = "TCG" then some 30
  else if niche = "WATCH" then some 30
  else if niche = "CAMERA_GEAR" then some 30
  else if niche = "LUXURY_ITEM" then some 30
  else if niche = "VIDEOGAME" then some 30
  else if niche = "STATIONARY" then some 30
  else if niche = "COLLECTION_FIGURES" then some (469 / 10)
  else none

/-- The code `SHIPPING_COSTS_BY_NICHE[nicheType] || 30.0`. -/
def getShippingCost (nicheType : String) : ℚ :=
  (SHIPPING_COSTS_BY_NICHE nicheType).getD 30

/-- The eBay pricing engine `calculateSalePriceWithMargin(costUSD,
desiredMarginPercent, shippingCost)`. -/
def calculateSalePriceWithMargin (costUSD desiredMarginPercent shippingCost : ℚ) : ℚ :=
  let totalFeePercent :=
    EBAY_FINAL_VALUE_FEE + EBAY_PAYMENT_PROCESSING_PERCENT + EBAY_INTERNATIONAL_FEE
  let desiredProfit := costUSD * (desiredMarginPercent / 100)
  (costUSD + shippingCost + desiredProfit + EBAY_PAYMENT_PROCESSING_FIXED) /
    (1 - totalFeePercent)

/-- The Shopify pricing engine `calculateShopifyPrice(costJPY,
desiredMarginPercent)`; shipping is not part of the priced base. -/
def calculateShopifyPrice (costJPY desiredMarginPercent : ℚ) : ℚ :=
  let costUSD := costJPY * JPY_TO_USD_RATE
  let desiredProfit := costUSD * (desiredMarginPercent / 100)
  (costUSD + desiredProfit + SHOPIFY_PAYMENT_FEE_FIXED) /
    (1 - SHOPIFY_PAYMENT_FEE_PERCENT)

/-! ## Condition-code remapping (`export.ts` lines 219–290) -/

/-- `CONDITION_MAPPINGS.STANDARD` (used by TCG, WATCH, CAMERA_GEAR). -/
def STANDARD_CONDITION_MAP (r : String) : Option String :=
  if r = "N" then some "1000"
  else if r = "S" then some "1500"
  else if r = "A" then some "3000"
  else if r = "B" then some "4000"
  else if r = "C" then some "5000"
  else if r = "D" then some "6000"
  else if r = "JUNK" then some "7000"
  else none

/-- `CONDITION_MAPPINGS.LUXURY_ITEM` (eBay luxury categories accept only
1000, 1500, 1750, 3000). -/
def LUXURY_CONDITION_MAP (r : String) : Option String :=
  if r = "N" then some "1000"
  else if r = "S" then some "1500"
  else if r = "A" then some "1750"
  else if r = "B" then some "3000"
  else if r = "C" then some "3000"
  else if r = "D" then some "3000"
  else if r = "JUNK" then some "3000"
  else none

/-- `CONDITION_MAPPINGS.RESTRICTED` (used by VIDEOGAME, STATIONARY,
COLLECTION_FIGURES). -/
def RESTRICTED_CONDITION_MAP (r : String) : Option String :=
  if r = "N" then some "1000"
  else if r = "S" then some "1500"
  else if r = "A" then some "3000"
  else if r = "B" then some "3000"
  else if r = "C" then some "3000"
  else if r = "D" then some "3000"
  else if r = "JUNK" then some "7000"
  else none

/-- The record `CONDITION_MAPPINGS` keyed by strategy name. -/
def CONDITION_MAPPINGS (strategy : String) : Option (String → Option String) :=
  if strategy = "STANDARD" then some STANDARD_CONDITION_MAP
  else if strategy = "LUXURY_ITEM" then some LUXURY_CONDITION_MAP
  else if strategy = "RESTRICTED" then some RESTRICTED_CONDITION_MAP
  else none

/-- `NICHE_CONDITION_STRATEGY`: maps each niche to its condition mapping
strategy. -/
def NICHE_CONDITION_STRATEGY (niche : String) : Option String :=
  if niche = "TCG" then some "STANDARD"
  else if niche = "WATCH" then some "STANDARD"
  else if niche = "CAMERA_GEAR" then some "STANDARD"
  else if niche = "LUXURY_ITEM" then some "LUXURY_ITEM"
  else if niche = "VIDEOGAME" then some "RESTRICTED"
  else if niche = "STATIONARY" then some "RESTRICTED"
  else if niche = "COLLECTION_FIGURES" then some "RESTRICTED"
  else none

/-- `mapToEBayCondition(rank?, nicheType?)`:
`strategy = nicheType ? NICHE_CONDITION_STRATEGY[nicheType] : 'STANDARD'`;
`conditionMap = CONDITION_MAPPINGS[strategy] || CONDITION_MAPPINGS.STANDARD`;
`return rank ? (conditionMap[rank] || '3000') : '3000'`. -/
def mapToEBayCondition (rank : Option String) (nicheType : Option String) : String :=
  let strategy : Option String :=
    match nicheType with
    | none => some "STANDARD"
    | some n => if n = "" then some "STANDARD" else NICHE_CONDITION_STRATEGY n
  let conditionMap : String → Option String :=
    match strategy with
    | none => STANDARD_CONDITION_MAP
    | some s => (CONDITION_MAPPINGS s).getD STANDARD_CONDITION_MAP
  match rank with
  | none => "3000"
  | some r => if r = "" then "3000" else (conditionMap r).getD "3000"

/-- The seven niche types handled by the exporter. -/
def nicheTypes : List String :=
  ["TCG", "WATCH", "CAMERA_GEAR", "LUXURY_ITEM", "VIDEOGAME", "STATIONARY",
   "COLLECTION_FIGURES"]

/-- The recognized source condition ranks (best to worst). -/
def conditionRanks : List String := ["N", "S", "A", "B", "C", "D", "JUNK"]

/-! ## Color inference (`export.ts` lines 382–448) -/

/-- The ordered keyword table `colorPatterns` of `determineColor`; the
source object literal's insertion order (specific shades first, then basic
colors) is preserved exactly. -/
def colorPatterns : List (String × String) :=
  [("navy", "Blue"), ("beige", "Beige"), ("tan", "Beige"),
   ("burgundy", "Red"), ("rose", "Pink"), ("blush", "Pink"),
   ("cognac", "Brown"), ("camel", "Brown"), ("khaki", "Beige"),
   ("cream", "White"), ("ivory", "White"), ("silver", "Silver"),
   ("gold", "Gold"), ("metallic", "Silver"),
   ("black", "Black"), ("white", "White"), ("brown", "Brown"),
   ("red", "Red"), ("blue", "Blue"), ("green", "Green"),
   ("pink", "Pink"), ("purple", "Purple"), ("yellow", "Yellow"),
   ("orange", "Orange"), ("gray", "Gray"), ("grey", "Gray")]

/-- `determineColor(brand?, title?)`: first keyword of the ordered table
found in the lowercased title wins; otherwise brand-specific defaults;
otherwise `'Brown'`. -/
def determineColor (brand title : Option String) : String :=
  let titleLower := jsToLower (title.getD "")
  let brandLower := jsToLower (brand.getD "")
  match colorPatterns.find? (fun p => jsIncludes titleLower p.1) with
  | some p => p.2
  | none =>
    if jsIncludes brandLower "louis vuitton" then "Brown"
    else if jsIncludes brandLower "gucci" then "Brown"
    else if jsIncludes brandLower "chanel" then "Black"
    else if jsIncludes brandLower "hermes" || jsIncludes brandLower "hermès" then "Brown"
    else "Brown"

/-! ## Listing data model

The export code reads these fields of a `MarketListing` (the full model
lives in `lib/models/market-listing.ts`); optional attributes are
`string | undefined` in the source and `Option String` here. -/

/-- The polymorphic `attributes` record of a listing; only the keys the
export code reads are modelled. -/
structure ListingAttributes where
  brand : Option String
  model : Option String
  model_number : Option String
  reference_number : Option String
  subcategory : Option String
  game : Option String
  tcg_game : Option String
  condition_rank : Option String
  card_number : Option String
  set_code : Option String
  set : Option String
  rarity : Option String
  language : Option String
  is_graded : Bool
  grading_company : Option String
  grade : Option String
  grade_qualifier : Option String
  cert_number : Option String
  character_name : Option String

/-- An attributes record with every optional key absent. -/
def emptyAttributes : ListingAttributes :=
  ⟨none, none, none, none, none, none, none, none, none, none, none, none,
   none, false, none, none, none, none, none⟩

/-- A market listing as consumed by the exporter. -/
structure MarketListing where
  _id : String
  title : String
  price_jpy : ℚ
  image_urls : List String
  niche_type : String
  attributes : ListingAttributes

/-! ## CSV serializer (`objectToCSVLine`, `export.ts` lines 705–720) -/

/-- JavaScript `s.replace(/"/g, s.double)` step: each double-quote doubled. -/
def doubleQuotesL : List Char → List Char
  | [] => []
  | c :: cs =>
    if c = '"' then '"' :: '"' :: doubleQuotesL cs else c :: doubleQuotesL cs

/-- The `stringValue.replace(/"/g, twoQuotes)` call of `objectToCSVLine`. -/
def jsReplaceQuotes (s : String) : String :=
  String.mk (doubleQuotesL s.toList)

/-- The quoting condition of `objectToCSVLine`: the value contains a comma,
a double-quote or a newline. -/
def needsCSVQuoting (s : String) : Bool :=
  s.toList.contains ',' || s.toList.contains '"' || s.toList.contains '\n'

/-- Field serialization inside `objectToCSVLine`: quote-wrap (doubling
internal quotes) exactly when the value contains a comma, quote or
newline; otherwise emit bare. -/
def escapeCSVValue (stringValue : String) : String :=
  if needsCSVQuoting stringValue then
    "\"" ++ jsReplaceQuotes stringValue ++ "\""
  else stringValue

/-- `objectToCSVLine(obj, headers)`: values are looked up by header name
(`field` models `obj[header] || ''`, a total lookup defaulting to the
empty string), escaped, and comma-joined. -/
def objectToCSVLine (field : String → String) (headers : List String) : String :=
  String.intercalate "," (headers.map (fun h => escapeCSVValue (field h)))

/-- Inverse of quote doubling: collapse each doubled double-quote. -/
def undoubleQuotesL : List Char → List Char
  | [] => []
  | [c] => [c]
  | c :: d :: cs =>
    if c = '"' ∧ d = '"' then '"' :: undoubleQuotesL cs
    else c :: undoubleQuotesL (d :: cs)

/-- Modelled from the spec: the standard (RFC-4180 style) CSV reader for a
single emitted field, the external consumer the spec's round-trip property
quantifies over (not code of this repository).  A field beginning with a
double-quote is unwrapped (outer quotes stripped, internal doubled quotes
collapsed); any other field is read verbatim. -/
def readCSVField (s : String) : String :=
  match s.toList with
  | [] => s
  | c :: rest =>
    if c = '"' then String.mk (undoubleQuotesL rest.dropLast) else s

/-! ## eBay category resolution (`export.ts` lines 122–217) -/

/-- `EBAY_CATEGORIES`: default eBay category per niche. -/
def EBAY_CATEGORIES (niche : String) : Option String :=
  if niche = "WATCH" then some "31387"
  else if niche = "CAMERA_GEAR" then some "15230"
  else if niche = "TCG" then some "183454"
  else if niche = "LUXURY_ITEM" then some "169291"
  else if niche = "VIDEOGAME" then some "139971"
  else if niche = "STATIONARY" then some "61778"
  else if niche = "COLLECTION_FIGURES" then some "261068"
  else none

/-- `TCG_GAME_CATEGORIES`: per-game eBay category for TCG listings. -/
def TCG_GAME_CATEGORIES (game : String) : Option String :=
  if game = "POKEMON" then some "183454"
  else if game = "YUGIOH" then some "183444"
  else if game = "ONE_PIECE" then some "183454"
  else if game = "MAGIC" then some "38292"
  else none

/-- `LUXURY_SUBCATEGORY_CATEGORIES`. -/
def LUXURY_SUBCATEGORY_CATEGORIES (sub : String) : Option String :=
  if sub = "BAG" then some "169291"
  else if sub = "WALLET" then some "45258"
  else if sub = "ACCESSORY" then some "155183"
  else none

/-- `VIDEOGAME_SUBCATEGORY_CATEGORIES`. -/
def VIDEOGAME_SUBCATEGORY_CATEGORIES (sub : String) : Option String :=
  if sub = "STANDING_CONSOLE" then some "139971"
  else if sub = "PORTABLE_CONSOLE" then some "171831"
  else if sub = "HYBRID_CONSOLE" then some "139971"
  else none

/-- `STATIONARY_SUBCATEGORY_CATEGORIES` (leaf categories). -/
def STATIONARY_SUBCATEGORY_CATEGORIES (sub : String) : Option String :=
  if sub = "FOUNTAIN_PEN" then some "61778"
  else if sub = "BALLPOINT_PEN" then some "61782"
  else if sub = "MECHANICAL_PENCIL" then some "61780"
  else if sub = "PEN" then some "61778"
  else if sub = "WRITING_UTENSIL" then some "61778"
  else if sub = "PENCIL" then some "61779"
  else if sub = "MARKER" then some "61781"
  else if sub = "INK" then some "49004"
  else if sub = "NOTEBOOK" then some "159903"
  else none

/-- `getTCGCategory(game?)`; the fallback is `EBAY_CATEGORIES.TCG`
(`"183454"`).  A missing, empty or unrecognized game falls back. -/
def getTCGCategory (game : Option String) : String :=
  match game with
  | none => "183454"
  | some g => (TCG_GAME_CATEGORIES g).getD "183454"

/-- `getLuxuryItemCategory(subcategory?)`; fallback `EBAY_CATEGORIES.LUXURY_ITEM`. -/
def getLuxuryItemCategory (sub : Option String) : String :=
  match sub with
  | none => "169291"
  | some s => (LUXURY_SUBCATEGORY_CATEGORIES s).getD "169291"

/-- `getVideogameCategory(subcategory?)`; fallback `EBAY_CATEGORIES.VIDEOGAME`. -/
def getVideogameCategory (sub : Option String) : String :=
  match sub with
  | none => "139971"
  | some s => (VIDEOGAME_SUBCATEGORY_CATEGORIES s).getD "139971"

/-- `getStationaryCategory(subcategory?)`; fallback `EBAY_CATEGORIES.STATIONARY`. -/
def getStationaryCategory (sub : Option String) : String :=
  match sub with
  | none => "61778"
  | some s => (STATIONARY_SUBCATEGORY_CATEGORIES s).getD "61778"

/-! ## Description and item-specific helpers (`export.ts` lines 292–380) -/

/-- The `conditionMap` of `mapConditionToText`. -/
def CONDITION_TEXT_MAP (r : String) : Option String :=
  if r = "N" then some "New - Brand new, unused item"
  else if r = "S" then some "Like New - Minimal to no signs of wear"
  else if r = "A" then some "Excellent - Light signs of use, well maintained"
  else if r = "B" then some "Very Good - Some signs of use, fully functional"
  else if r = "C" then some "Good - Noticeable wear, fully functional"
  else if r = "D" then some "Fair - Heavy wear, fully functional"
  else if r = "JUNK" then some "For Parts/Not Working - May not be functional"
  else none

/-- `mapConditionToText(rank?)`: `rank ? (conditionMap[rank] || 'Used') : 'Used'`. -/
def mapConditionToText (rank : Option String) : String :=
  match rank with
  | none => "Used"
  | some r => if r = "" then "Used" else (CONDITION_TEXT_MAP r).getD "Used"

/-- The `nicheDescriptions` record of `generateEBayDescription`. -/
def EBAY_NICHE_DESCRIPTIONS (niche : String) : Option String :=
  if niche = "WATCH" then some "Authentic Pre-Owned Luxury Watch"
  else if niche = "CAMERA_GEAR" then some "Professional Camera Equipment"
  else if niche = "TCG" then some "Authentic Trading Card Game Card"
  else if niche = "LUXURY_ITEM" then some "Authentic Designer Luxury Item"
  else if niche = "VIDEOGAME" then some "Authentic Game Console from Japan"
  else if niche = "STATIONARY" then some "Authentic Writing Instrument from Japan"
  else if niche = "COLLECTION_FIGURES" then some "Authentic Collectible Figure from Japan"
  else none

/-- `generateEBayDescription(listing)`: the HTML template, after the
source's trailing `.trim()`. -/
def generateEBayDescription (l : MarketListing) : String :=
  let title := (EBAY_NICHE_DESCRIPTIONS l.niche_type).getD "Authentic Pre-Owned Item"
  "<div style=\"font-family: Arial, sans-serif; max-width: 800px; margin: 0 auto;\">\n  <h2>"
    ++ title
    ++ "</h2>\n\n  <p><strong>Sourced and Shipped from Japan</strong></p>\n\n  <h3>Item Details</h3>\n  <ul>\n    <li><strong>Condition:</strong> "
    ++ mapConditionToText l.attributes.condition_rank
    ++ "</li>\n  </ul>\n\n  <h3>Shipping & Packaging</h3>\n  <p>All items are carefully inspected, authenticated, and securely packaged with bubble wrap and\n  protective materials to ensure safe international delivery.</p>\n\n  <p><em>All items are sold as-is. Please review the condition grade and photos carefully before purchase.</em></p>\n</div>"

/-- The `styleMap` of `mapSubcategoryToStyle`. -/
def SUBCATEGORY_STYLE_MAP (sub : String) : Option String :=
  if sub = "BAG" then some "Shoulder Bag"
  else if sub = "WALLET" then some "Wallet"
  else if sub = "ACCESSORY" then some "Fashion Accessory"
  else none

/-- `mapSubcategoryToStyle(subcategory?)`. -/
def mapSubcategoryToStyle (sub : Option String) : String :=
  match sub with
  | none => "Shoulder Bag"
  | some s => if s = "" then "Shoulder Bag" else (SUBCATEGORY_STYLE_MAP s).getD "Shoulder Bag"

/-- `determineExteriorMaterial(brand?, title?)`. -/
def determineExteriorMaterial (brand title : Option String) : String :=
  let brandLower := jsToLower (brand.getD "")
  let titleLower := jsToLower (title.getD "")
  if jsIncludes brandLower "louis vuitton" || jsIncludes brandLower "gucci"
      || jsIncludes titleLower "canvas" then
    "Canvas"
  else "Leather"

/-- JavaScript `x.toFixed(2)` over the exact rational value: round to the
nearest cent (the display layer; binary-float edge cases of the source are
immaterial to every claim, which treat prices as exact rationals). -/
def toFixed2 (q : ℚ) : String :=
  let cents : ℤ := round (q * 100)
  let sign := if cents < 0 then "-" else ""
  let a := cents.natAbs
  sign ++ toString (a / 100) ++ "." ++ (if a % 100 < 10 then "0" else "") ++ toString (a % 100)

/-! ## eBay row mapper (`export.ts` lines 41–120 and 501–703) -/

/-- `EBayCSVRow`: one eBay File Exchange row.  Field names are Lean
identifiers; `EBayCSVRow.field` maps each CSV header (with its literal
punctuation) to the corresponding projection.  Optional (`?`) fields of
the source interface are `Option String`. -/
structure EBayCSVRow where
  action : String
  category : String
  title : String
  startPrice : String
  quantity : String
  format : String
  duration : String
  location : String
  description : String
  brand : String
  productUPC : String
  productISBN : String
  picURL : String
  conditionID : String
  model : String
  ctype : String
  exteriorColor : Option String
  exteriorMaterial : Option String
  department : Option String
  style : Option String
  color : Option String
  platform : Option String
  bandMaterial : Option String
  caseMaterial : Option String
  movement : Option String
  dialColor : Option String
  series : Option String
  megapixels : Option String
  opticalZoom : Option String
  cardName : Option String
  cardNumber : Option String
  setName : Option String
  rarity : Option String
  language : Option String
  inkColor : Option String
  pointSize : Option String
  features : Option String
  character : Option String
  characterFamily : Option String
  scale : Option String
  material : Option String
  shippingType : String
  shippingServiceOption : String
  shippingServiceCost : String
  dispatchTimeMax : String
  returnsAcceptedOption : String
  returnsWithinOption : String
  refundOption : String
  shippingCostPaidByOption : String

/-- Header-keyed lookup on an eBay row, modelling `obj[header] || ''` of
`objectToCSVLine`: unset optional fields and unknown headers give `""`. -/
def EBayCSVRow.field (r : EBayCSVRow) (header : String) : String :=
  if header = "*Action(SiteID=US|Country=US|Currency=USD|Version=1193)" then r.action
  else if header = "*Category" then r.category
  else if header = "*Title" then r.title
  else if header = "*StartPrice" then r.startPrice
  else if header = "*Quantity" then r.quantity
  else if header = "*Format" then r.format
  else if header = "*Duration" then r.duration
  else if header = "*Location" then r.location
  else if header = "*Description" then r.description
  else if header = "C:Brand" then r.brand
  else if header = "Product:UPC" then r.productUPC
  else if header = "Product:ISBN" then r.productISBN
  else if header = "PicURL" then r.picURL
  else if header = "ConditionID" then r.conditionID
  else if header = "C:Model" then r.model
  else if header = "C:Type" then r.ctype
  else if header = "C:Exterior Color" then r.exteriorColor.getD ""
  else if header = "C:Exterior Material" then r.exteriorMaterial.getD ""
  else if header = "C:Department" then r.department.getD ""
  else if header = "C:Style" then r.style.getD ""
  else if header = "Color" then r.color.getD ""
  else if header = "C:Platform" then r.platform.getD ""
  else if header = "C:Band Material" then r.bandMaterial.getD ""
  else if header = "C:Case Material" then r.caseMaterial.getD ""
  else if header = "C:Movement" then r.movement.getD ""
  else if header = "C:Dial Color" then r.dialColor.getD ""
  else if header = "C:Series" then r.series.getD ""
  else if header = "C:Megapixels" then r.megapixels.getD ""
  else if header = "C:Optical Zoom" then r.opticalZoom.getD ""
  else if header = "C:Card Name" then r.cardName.getD ""
  else if header = "C:Card Number" then r.cardNumber.getD ""
  else if header = "C:Set" then r.setName.getD ""
  else if header = "C:Rarity" then r.rarity.getD ""
  else if header = "C:Language" then r.language.getD ""
  else if header = "C:Ink Color" then r.inkColor.getD ""
  else if header = "C:Point Size" then r.pointSize.getD ""
  else if header = "C:Features" then r.features.getD ""
  else if header = "C:Character" then r.character.getD ""
  else if header = "C:Character Family" then r.characterFamily.getD ""
  else if header = "C:Scale" then r.scale.getD ""
  else if header = "C:Material" then r.material.getD ""
  else if header = "*ShippingType" then r.shippingType
  else if header = "ShippingService-1:Option" then r.shippingServiceOption
  else if header = "ShippingService-1:Cost" then r.shippingServiceCost
  else if header = "DispatchTimeMax" then r.dispatchTimeMax
  else if header = "ReturnsAcceptedOption" then r.returnsAcceptedOption
  else if header = "ReturnsWithinOption" then r.returnsWithinOption
  else if header = "RefundOption" then r.refundOption
  else if header = "ShippingCostPaidByOption" then r.shippingCostPaidByOption
  else ""

/-- The videogame `C:Platform` inference cascade of `listingToEBayRow`
(brand then model-number substring checks, Nintendo/Sony/Microsoft/Sega). -/
def inferVideogamePlatform (brand modelNumber : String) : String :=
  let brandL := jsToLower brand
  let modelL := jsToLower modelNumber
  if jsIncludes brandL "nintendo" then
    if jsIncludes modelL "switch" then "Nintendo Switch"
    else if jsIncludes modelL "game boy" || jsIncludes modelL "ゲームボーイ" then "Nintendo Game Boy"
    else if jsIncludes modelL "3ds" then "Nintendo 3DS"
    else if jsIncludes modelL "ds" then "Nintendo DS"
    else if jsIncludes modelL "wii" then "Nintendo Wii"
    else "Nintendo"
  else if jsIncludes brandL "sony" then
    if jsIncludes modelL "playstation" || jsIncludes modelL "ps" then "Sony PlayStation"
    else if jsIncludes modelL "psp" then "Sony PSP"
    else if jsIncludes modelL "vita" then "Sony PlayStation Vita"
    else "Sony PlayStation"
  else if jsIncludes brandL "microsoft" then "Microsoft Xbox"
  else if jsIncludes brandL "sega" then "Sega"
  else "See description"

/-- `listingToEBayRow(listing, netMarginPercent)`: the base row followed by
the niche-specific item-specific assignments. -/
def listingToEBayRow (l : MarketListing) (netMarginPercent : ℚ) : EBayCSVRow :=
  let a := l.attributes
  let costUSD := l.price_jpy * JPY_TO_USD_RATE
  let shippingCost := getShippingCost l.niche_type
  let priceUSD := toFixed2 (calculateSalePriceWithMargin costUSD netMarginPercent shippingCost)
  let ebayCategory :=
    if l.niche_type = "TCG" then getTCGCategory a.game
    else if l.niche_type = "LUXURY_ITEM" then getLuxuryItemCategory a.subcategory
    else if l.niche_type = "VIDEOGAME" then getVideogameCategory a.subcategory
    else if l.niche_type = "STATIONARY" then getStationaryCategory a.subcategory
    else (EBAY_CATEGORIES l.niche_type).getD "15230"
  let row : EBayCSVRow :=
    { action := "Add"
      category := ebayCategory
      title := jsSubstringTo l.title 80
      startPrice := priceUSD
      quantity := "1"
      format := "FixedPrice"
      duration := "GTC"
      location := "Tokyo, Japan"
      description := generateEBayDescription l
      brand := jsOrStr a.brand "Unbranded"
      productUPC := "Does not apply"
      productISBN := "Does not apply"
      picURL := String.intercalate "|" (l.image_urls.take 12)
      conditionID := mapToEBayCondition a.condition_rank (some l.niche_type)
      model := jsOrStr a.model (jsOrStr a.model_number (jsOrStr a.reference_number "See description"))
      ctype := jsOrStr a.subcategory l.niche_type
      exteriorColor := none, exteriorMaterial := none, department := none
      style := none, color := none, platform := none
      bandMaterial := none, caseMaterial := none, movement := none, dialColor := none
      series := none, megapixels := none, opticalZoom := none
      cardName := none, cardNumber := none, setName := none, rarity := none, language := none
      inkColor := none, pointSize := none, features := none
      character := none, characterFamily := none, scale := none, material := none
      shippingType := "Flat"
      shippingServiceOption := "ShippingMethodStandard"
      shippingServiceCost := "0.00"
      dispatchTimeMax := "7"
      returnsAcceptedOption := "ReturnsAccepted"
      returnsWithinOption := "Days_30"
      refundOption := "MoneyBack"
      shippingCostPaidByOption := "Buyer" }
  if l.niche_type = "LUXURY_ITEM" then
    if a.subcategory = some "BAG" then
      { row with
        exteriorColor := some (determineColor a.brand (some l.title))
        exteriorMaterial := some (determineExteriorMaterial a.brand (some l.title))
        department := some "Women"
        style := some "Shoulder Bag" }
    else if a.subcategory = some "WALLET" ∨ a.subcategory = some "ACCESSORY" then
      { row with
        color := some (determineColor a.brand (some l.title))
        department := some "Women"
        style := some (mapSubcategoryToStyle a.subcategory) }
    else
      { row with
        exteriorColor := some (determineColor a.brand (some l.title))
        exteriorMaterial := some (determineExteriorMaterial a.brand (some l.title))
        department := some "Women"
        style := some "Shoulder Bag" }
  else if l.niche_type = "VIDEOGAME" then
    { row with
      platform := some (inferVideogamePlatform (jsOrStr a.brand "") (jsOrStr a.model_number ""))
      ctype := "Console" }
  else if l.niche_type = "WATCH" then
    { row with
      bandMaterial := some "Stainless Steel"
      caseMaterial := some "Stainless Steel"
      movement := some "Automatic"
      dialColor := some (determineColor a.brand (some l.title)) }
  else if l.niche_type = "CAMERA_GEAR" then
    let modelNumber := jsOrStr a.model_number ""
    let firstToken := (modelNumber.splitOn " ").getD 0 ""
    { row with
      series := some (if firstToken = "" then "See description" else firstToken)
      megapixels := some "See description"
      opticalZoom := some "See description" }
  else if l.niche_type = "TCG" then
    { row with
      cardName := some (jsSubstringTo l.title 50)
      cardNumber := some (jsOrStr a.card_number "See description")
      setName := some (jsOrStr a.set_code (jsOrStr a.set "See description"))
      rarity := some (jsOrStr a.rarity "See description")
      language := some (jsOrStr a.language "Japanese") }
  else if l.niche_type = "STATIONARY" then
    let subcategory := jsOrStr a.subcategory ""
    if subcategory = "FOUNTAIN_PEN" ∨ subcategory = "BALLPOINT_PEN" ∨ subcategory = "PEN" then
      { row with
        inkColor := some "Black"
        pointSize := some "Medium"
        features := some (if subcategory = "FOUNTAIN_PEN" then "Refillable" else "See description") }
    else row
  else if l.niche_type = "COLLECTION_FIGURES" then
    let subcategory := jsOrStr a.subcategory ""
    let characterName := jsOrStr a.character_name ""
    let brand := jsOrStr a.brand ""
    let row₁ := if characterName = "" then row else { row with character := some characterName }
    { row₁ with
      characterFamily := some
        (if jsIncludes (jsToLower brand) "bandai" || jsIncludes (jsToLower brand) "good smile" then
          "Anime"
        else "See description")
      scale := some
        (if subcategory = "SCALE_FIGURE" then "1:8"
         else if subcategory = "NENDOROID" then "Non-Scale"
         else if subcategory = "FIGMA" then "Non-Scale"
         else "See description")
      material := some "PVC" }
  else row

/-! ## Export orchestrators (`export.ts` lines 722–844 and 1228–1371)

The database collaborator (`getDatabase` / `collection.find`) is external;
its outcome is passed in as an `Except`: `Except.error` models the
collaborator throwing (caught by the source's `try/catch`), `Except.ok`
the list of listings found for the requested IDs.  The current time is
passed as the ISO timestamp string the source obtains from
`new Date().toISOString()`.  The orchestrators are total functions: no
failure escapes as an exception. -/

/-- `{success, csv?, filename?, error?}`: the export result record. -/
structure ExportResult where
  success : Bool
  csv : Option String
  filename : Option String
  error : Option String

/-- The filename timestamp: `toISOString().replace(/[:.]/g, '-').split('.')[0]`
(after the replacement no period remains, so the split keeps the whole
string). -/
def sanitizeTimestamp (iso : String) : String :=
  let replaced := String.mk (iso.toList.map (fun c => if c = ':' ∨ c = '.' then '-' else c))
  (replaced.splitOn ".").getD 0 replaced

/-- The eBay File Exchange header list (order exactly as in the source). -/
def ebayHeaders : List String :=
  ["*Action(SiteID=US|Country=US|Currency=USD|Version=1193)",
   "*Category", "*Title", "*StartPrice", "*Quantity", "*Format", "*Duration",
   "*Location", "*Description", "C:Brand", "Product:UPC", "Product:ISBN",
   "PicURL", "ConditionID", "C:Model", "C:Type",
   "C:Exterior Color", "C:Exterior Material", "C:Department", "C:Style", "Color",
   "C:Platform",
   "C:Band Material", "C:Case Material", "C:Movement", "C:Dial Color",
   "C:Series", "C:Megapixels", "C:Optical Zoom",
   "C:Card Name", "C:Card Number", "C:Set", "C:Rarity", "C:Language",
   "C:Ink Color", "C:Point Size", "C:Features",
   "C:Character", "C:Character Family", "C:Scale", "C:Material",
   "*ShippingType", "ShippingService-1:Option", "ShippingService-1:Cost",
   "DispatchTimeMax", "ReturnsAcceptedOption", "ReturnsWithinOption",
   "RefundOption", "ShippingCostPaidByOption"]

/-- The eBay CSV text: header line then one serialized line per listing,
newline-joined. -/
def ebayCSVText (listings : List MarketListing) (netMarginPercent : ℚ) : String :=
  let csvRows := listings.map (fun l => listingToEBayRow l netMarginPercent)
  String.intercalate "\n"
    (String.intercalate "," ebayHeaders ::
      csvRows.map (fun r => objectToCSVLine r.field ebayHeaders))

/-- `exportToEBayCSV(listingIds, netMarginPercent)`. -/
def exportToEBayCSV (listingIds : List String) (netMarginPercent : ℚ)
    (fetched : Except Unit (List MarketListing)) (isoTimestamp : String) : ExportResult :=
  if listingIds.isEmpty then
    ⟨false, none, none, some "No listings selected for export"⟩
  else
    match fetched with
    | Except.error _ => ⟨false, none, none, some "Failed to export listings"⟩
    | Except.ok listings =>
      if listings.isEmpty then
        ⟨false, none, none, some "No listings found with the provided IDs"⟩
      else
        ⟨true, some (ebayCSVText listings netMarginPercent),
          some ("ebay-listings-" ++ sanitizeTimestamp isoTimestamp ++ ".csv"), none⟩

/-! ## Shopify row mapper (`export.ts` lines 846–1226) -/

/-- `SHOPIFY_TCG_CATEGORIES`. -/
def SHOPIFY_TCG_CATEGORIES (game : String) : Option String :=
  if game = "POKEMON" then some "Collectible Trading Cards"
  else if game = "YUGIOH" then some "Collectible Trading Cards"
  else if game = "ONE_PIECE" then some "Collectible Trading Cards"
  else if game = "MAGIC" then some "Collectible Trading Cards"
  else if game = "WEISS_SCHWARZ" then some "Collectible Trading Cards"
  else if game = "DRAGON_BALL" then some "Collectible Trading Cards"
  else if game = "DIGIMON" then some "Collectible Trading Cards"
  else if game = "VANGUARD" then some "Collectible Trading Cards"
  else if game = "UNION_ARENA" then some "Collectible Trading Cards"
  else if game = "DUEL_MASTERS" then some "Collectible Trading Cards"
  else none

/-- `SHOPIFY_TCG_COLLECTIONS` (games without a dedicated collection map to
the empty string). -/
def SHOPIFY_TCG_COLLECTIONS (game : String) : Option String :=
  if game = "POKEMON" then some "Pokemon Card Game"
  else if game = "YUGIOH" then some "Yu-Gi-Oh!"
  else if game = "ONE_PIECE" then some "One Piece Card Game"
  else if game = "MAGIC" then some "Magic: The Gathering"
  else if game = "UNION_ARENA" then some "Union Arena"
  else if game = "WEISS_SCHWARZ" then some ""
  else if game = "DRAGON_BALL" then some ""
  else if game = "DIGIMON" then some ""
  else if game = "VANGUARD" then some ""
  else if game = "DUEL_MASTERS" then some ""
  else if game = "HOLOLIVE" then some "hololive Official Card Game"
  else none

/-- `SHOPIFY_NICHE_CATEGORIES`. -/
def SHOPIFY_NICHE_CATEGORIES (niche : String) : Option String :=
  if niche = "TCG" then some "Collectible Trading Cards"
  else if niche = "WATCH" then some "Apparel & Accessories > Jewelry > Watches"
  else if niche = "CAMERA_GEAR" then some "Cameras & Optics > Camera & Optic Accessories"
  else if niche = "LUXURY_ITEM" then some "Apparel & Accessories > Handbags, Wallets & Cases"
  else if niche = "VIDEOGAME" then some "Electronics > Video Game Consoles"
  else if niche = "STATIONARY" then some "Office Supplies > Writing Instruments"
  else if niche = "COLLECTION_FIGURES" then some "Toys & Games > Toys > Action Figures"
  else none

/-- `WEIGHT_BY_NICHE` (grams). -/
def WEIGHT_BY_NICHE (niche : String) : Option Nat :=
  if niche = "TCG" then some 100
  else if niche = "WATCH" then some 300
  else if niche = "CAMERA_GEAR" then some 500
  else if niche = "LUXURY_ITEM" then some 400
  else if niche = "VIDEOGAME" then some 800
  else if niche = "STATIONARY" then some 100
  else if niche = "COLLECTION_FIGURES" then some 500
  else none

/-- Modelled from the spec: `NICHE_DISPLAY_NAMES` is imported from
`lib/constants.ts`, which is not among the provided sources.  The spec
fixes the seven niche keys but not the display strings; representative
display names are used and no claim depends on the values. -/
def NICHE_DISPLAY_NAMES (niche : String) : Option String :=
  if niche = "TCG" then some "Trading Cards"
  else if niche = "WATCH" then some "Watches"
  else if niche = "CAMERA_GEAR" then some "Camera Gear"
  else if niche = "LUXURY_ITEM" then some "Luxury Items"
  else if niche = "VIDEOGAME" then some "Videogames"
  else if niche = "STATIONARY" then some "Stationary"
  else if niche = "COLLECTION_FIGURES" then some "Collection Figures"
  else none

/-- Modelled from the spec: `TCG_GAME_NAMES` from the absent
`lib/constants.ts`; keys are the game codes the export tables use; no
claim depends on the values. -/
def TCG_GAME_NAMES (game : String) : Option String :=
  if game = "POKEMON" then some "Pokemon"
  else if game = "YUGIOH" then some "Yu-Gi-Oh!"
  else if game = "ONE_PIECE" then some "One Piece"
  else if game = "MAGIC" then some "Magic: The Gathering"
  else if game = "WEISS_SCHWARZ" then some "Weiss Schwarz"
  else if game = "DRAGON_BALL" then some "Dragon Ball"
  else if game = "DIGIMON" then some "Digimon"
  else if game = "VANGUARD" then some "Vanguard"
  else if game = "UNION_ARENA" then some "Union Arena"
  else if game = "DUEL_MASTERS" then some "Duel Masters"
  else if game = "HOLOLIVE" then some "hololive"
  else none

/-- Modelled from the spec: `GRADING_COMPANY_NAMES` from the absent
`lib/constants.ts`; no claim depends on the values. -/
def GRADING_COMPANY_NAMES (company : String) : Option String :=
  if company = "PSA" then some "PSA"
  else if company = "BGS" then some "BGS"
  else if company = "CGC" then some "CGC"
  else if company = "ARS" then some "ARS"
  else none

/-- JavaScript truthiness of an optional string. -/
def jsTruthy (o : Option String) : Bool :=
  !((o.getD "") == "")

/-- JavaScript `s.toUpperCase()`, modelled character-wise on ASCII. -/
def jsToUpper (s : String) : String :=
  String.mk (s.toList.map Char.toUpper)

/-- Character class `\s` of the handle/tag regexes (ASCII whitespace). -/
def isJsSpace (c : Char) : Bool :=
  c = ' ' || c = '\t' || c = '\n' || c = '\r'

/-- Replace each maximal run of characters satisfying `p` by the single
character `r` (JavaScript `replace(/X+/g, r)`). -/
def collapseRuns (p : Char → Bool) (r : Char) : List Char → List Char
  | [] => []
  | c :: cs =>
    if p c then
      match cs with
      | [] => [r]
      | d :: _ => if p d then collapseRuns p r cs else r :: collapseRuns p r cs
    else c :: collapseRuns p r cs

/-- `generateHandle(listing)`: lowercase, strip characters outside
`[a-z0-9\s-]`, collapse whitespace runs then dash runs to single dashes,
truncate to 50, and append the last six characters of the listing id. -/
def generateHandle (l : MarketListing) : String :=
  let lowered := jsToLower l.title
  let kept := lowered.toList.filter
    (fun c => (decide ('a' ≤ c) && decide (c ≤ 'z')) ||
              (decide ('0' ≤ c) && decide (c ≤ '9')) ||
              isJsSpace c || c = '-')
  let dashed := collapseRuns isJsSpace '-' kept
  let collapsed := collapseRuns (fun c => c = '-') '-' dashed
  let baseHandle := String.mk (collapsed.take 50)
  let idChars := l._id.toList
  let idSuffix := String.mk (idChars.drop (idChars.length - 6))
  baseHandle ++ "-" ++ idSuffix

/-- JavaScript `replace(/[^a-zA-Z0-9\s]/g, '')` used on TCG game tags. -/
def stripNonAlnumSpace (s : String) : String :=
  String.mk (s.toList.filter (fun c => c.isAlpha || c.isDigit || isJsSpace c))

/-- The TCG `Card Details` block of `generateShopifyDescription`. -/
def shopifyTCGDetails (a : ListingAttributes) : String :=
  let g := a.tcg_game.getD ""
  let s0 := "<h3>Card Details</h3><ul>"
  let s1 := if jsTruthy a.tcg_game then
      s0 ++ "<li><strong>Game:</strong> " ++ (TCG_GAME_NAMES g).getD g ++ "</li>"
    else s0
  let s2 := if jsTruthy a.set_code then
      s1 ++ "<li><strong>Set:</strong> " ++ a.set_code.getD "" ++ "</li>"
    else s1
  let s3 := if jsTruthy a.card_number then
      s2 ++ "<li><strong>Card Number:</strong> " ++ a.card_number.getD "" ++ "</li>"
    else s2
  let s4 := if jsTruthy a.rarity then
      s3 ++ "<li><strong>Rarity:</strong> " ++ a.rarity.getD "" ++ "</li>"
    else s3
  let s5 := if jsTruthy a.language then
      s4 ++ "<li><strong>Language:</strong> " ++ a.language.getD "" ++ "</li>"
    else s4
  let s6 :=
    if a.is_graded then
      let t0 := s5 ++ "<li><strong>Graded:</strong> Yes</li>"
      let t1 := if jsTruthy a.grading_company then
          let c := a.grading_company.getD ""
          t0 ++ "<li><strong>Grading Company:</strong> " ++ (GRADING_COMPANY_NAMES c).getD c ++ "</li>"
        else t0
      let t2 := if jsTruthy a.grade then
          t1 ++ "<li><strong>Grade:</strong> " ++ a.grade.getD "" ++
            (if jsTruthy a.grade_qualifier then " (" ++ a.grade_qualifier.getD "" ++ ")" else "") ++
            "</li>"
        else t1
      if jsTruthy a.cert_number then
        t2 ++ "<li><strong>Cert Number:</strong> " ++ a.cert_number.getD "" ++ "</li>"
      else t2
    else s5
  s6 ++ "</ul>"

/-- `generateShopifyDescription(listing)`. -/
def generateShopifyDescription (l : MarketListing) : String :=
  let a := l.attributes
  let nicheLabel := (NICHE_DISPLAY_NAMES l.niche_type).getD l.niche_type
  let d0 := "<div style=\"font-family: system-ui, -apple-system, sans-serif;\">"
    ++ "<h2>" ++ l.title ++ "</h2>"
    ++ "<p><strong>Authentic " ++ nicheLabel ++ " from Japan</strong></p>"
  let d1 := if l.niche_type = "TCG" then d0 ++ shopifyTCGDetails a else d0
  let d2 := if jsTruthy a.condition_rank then
      d1 ++ "<h3>Condition</h3>" ++ "<p>" ++ mapConditionToText a.condition_rank ++ "</p>"
    else d1
  d2 ++ "<h3>Shipping</h3>"
    ++ "<p>Ships from Japan with tracking. Items are carefully packaged with protective materials.</p>"
    ++ "<p><em>All items are sold as-is. Please review photos carefully before purchase.</em></p>"
    ++ "</div>"

/-- `generateShopifyTags(listing)`: the accumulated tag list, comma-joined. -/
def generateShopifyTags (l : MarketListing) : String :=
  let a := l.attributes
  let g := a.tcg_game.getD ""
  let tags :=
    [l.niche_type]
    ++ (if l.niche_type = "TCG" then
          (if jsTruthy a.tcg_game then [stripNonAlnumSpace ((TCG_GAME_NAMES g).getD g)] else [])
          ++ (if a.is_graded then
                ["Graded"]
                ++ (if jsTruthy a.grading_company then [a.grading_company.getD ""] else [])
                ++ (if jsTruthy a.grade then ["Grade " ++ a.grade.getD ""] else [])
              else ["Raw"])
          ++ (if jsTruthy a.set_code then [a.set_code.getD ""] else [])
          ++ (if jsTruthy a.rarity then [a.rarity.getD ""] else [])
          ++ (if jsTruthy a.language then [a.language.getD ""] else [])
        else [])
    ++ (if jsTruthy a.brand then [a.brand.getD ""] else [])
    ++ (if jsTruthy a.condition_rank then ["Condition-" ++ a.condition_rank.getD ""] else [])
    ++ ["Japan", "Japanese Import"]
  String.intercalate ", " tags

/-- `ShopifyCSVRow`: one Shopify Product CSV row; `ShopifyCSVRow.field`
maps each CSV header to the corresponding projection. -/
structure ShopifyCSVRow where
  handle : String
  title : String
  bodyHTML : String
  vendor : String
  productCategory : String
  ptype : String
  tags : String
  published : String
  option1Name : String
  option1Value : String
  variantSKU : String
  variantGrams : String
  variantInventoryTracker : String
  variantInventoryQty : String
  variantInventoryPolicy : String
  variantFulfillmentService : String
  variantPrice : String
  variantCompareAtPrice : String
  variantRequiresShipping : String
  variantTaxable : String
  variantBarcode : String
  variantWeightUnit : String
  imageSrc : String
  imagePosition : String
  imageAltText : String
  seoTitle : String
  seoDescription : String
  status : String
  collection : String
  costPerItem : String

/-- Header-keyed lookup on a Shopify row (`obj[header] || ''`). -/
def ShopifyCSVRow.field (r : ShopifyCSVRow) (header : String) : String :=
  if header = "Handle" then r.handle
  else if header = "Title" then r.title
  else if header = "Body (HTML)" then r.bodyHTML
  else if header = "Vendor" then r.vendor
  else if header = "Product Category" then r.productCategory
  else if header = "Type" then r.ptype
  else if header = "Tags" then r.tags
  else if header = "Published" then r.published
  else if header = "Option1 Name" then r.option1Name
  else if header = "Option1 Value" then r.option1Value
  else if header = "Variant SKU" then r.variantSKU
  else if header = "Variant Grams" then r.variantGrams
  else if header = "Variant Inventory Tracker" then r.variantInventoryTracker
  else if header = "Variant Inventory Qty" then r.variantInventoryQty
  else if header = "Variant Inventory Policy" then r.variantInventoryPolicy
  else if header = "Variant Fulfillment Service" then r.variantFulfillmentService
  else if header = "Variant Price" then r.variantPrice
  else if header = "Variant Compare At Price" then r.variantCompareAtPrice
  else if header = "Variant Requires Shipping" then r.variantRequiresShipping
  else if header = "Variant Taxable" then r.variantTaxable
  else if header = "Variant Barcode" then r.variantBarcode
  else if header = "Variant Weight Unit" then r.variantWeightUnit
  else if header = "Image Src" then r.imageSrc
  else if header = "Image Position" then r.imagePosition
  else if header = "Image Alt Text" then r.imageAltText
  else if header = "SEO Title" then r.seoTitle
  else if header = "SEO Description" then r.seoDescription
  else if header = "Status" then r.status
  else if header = "Collection" then r.collection
  else if header = "Cost per item" then r.costPerItem
  else ""

/-- `listingToShopifyRow(listing, netMarginPercent)`: the primary row of a
listing. -/
def listingToShopifyRow (l : MarketListing) (netMarginPercent : ℚ) : ShopifyCSVRow :=
  let a := l.attributes
  let priceUSD := calculateShopifyPrice l.price_jpy netMarginPercent
  let category :=
    if l.niche_type = "TCG" ∧ jsTruthy a.tcg_game then
      -- `SHOPIFY_TCG_CATEGORIES[attributes.tcg_game] || SHOPIFY_NICHE_CATEGORIES.TCG`
      (SHOPIFY_TCG_CATEGORIES (a.tcg_game.getD "")).getD "Collectible Trading Cards"
    else (SHOPIFY_NICHE_CATEGORIES l.niche_type).getD "Miscellaneous"
  let weightGrams := (WEIGHT_BY_NICHE l.niche_type).getD 100
  let sku := "VD-" ++ jsToUpper (jsSubstringTo l._id 12)
  let vendor := jsOrStr a.brand "VeloData Japan"
  let productType :=
    if l.niche_type = "TCG" then
      let gameName :=
        if jsTruthy a.tcg_game then
          (TCG_GAME_NAMES (a.tcg_game.getD "")).getD (a.tcg_game.getD "")
        else "Trading Card"
      if a.is_graded then "Graded " ++ gameName ++ " Card" else gameName ++ " Card"
    else (NICHE_DISPLAY_NAMES l.niche_type).getD l.niche_type
  let collection :=
    if l.niche_type = "TCG" ∧ jsTruthy a.tcg_game then
      (SHOPIFY_TCG_COLLECTIONS (a.tcg_game.getD "")).getD ""
    else ""
  { handle := generateHandle l
    title := jsSubstringTo l.title 255
    bodyHTML := generateShopifyDescription l
    vendor := vendor
    productCategory := category
    ptype := productType
    tags := generateShopifyTags l
    published := "true"
    option1Name := "Title"
    option1Value := "Default Title"
    variantSKU := sku
    variantGrams := toString weightGrams
    variantInventoryTracker := "shopify"
    variantInventoryQty := "1"
    variantInventoryPolicy := "deny"
    variantFulfillmentService := "manual"
    variantPrice := toFixed2 priceUSD
    variantCompareAtPrice := ""
    variantRequiresShipping := "true"
    variantTaxable := "true"
    variantBarcode := ""
    variantWeightUnit := "g"
    imageSrc := l.image_urls.getD 0 ""
    imagePosition := "1"
    imageAltText := jsSubstringTo l.title 125
    seoTitle := jsSubstringTo l.title 70
    seoDescription := jsSubstringTo l.title 150 ++ " - Authentic from Japan"
    status := "active"
    collection := collection
    costPerItem := toFixed2 (l.price_jpy * JPY_TO_USD_RATE) }

/-- One image-continuation row of the Shopify export loop (`export.ts`
lines 1276–1310): only `Handle` (copied from the primary row) and the
three image fields are populated, every other field is the empty string. -/
def shopifyContinuationRow (l : MarketListing) (handle : String) (imgIndex : Nat) : ShopifyCSVRow :=
  { handle := handle
    title := ""
    bodyHTML := ""
    vendor := ""
    productCategory := ""
    ptype := ""
    tags := ""
    published := ""
    option1Name := ""
    option1Value := ""
    variantSKU := ""
    variantGrams := ""
    variantInventoryTracker := ""
    variantInventoryQty := ""
    variantInventoryPolicy := ""
    variantFulfillmentService := ""
    variantPrice := ""
    variantCompareAtPrice := ""
    variantRequiresShipping := ""
    variantTaxable := ""
    variantBarcode := ""
    variantWeightUnit := ""
    imageSrc := l.image_urls.getD imgIndex ""
    imagePosition := toString (imgIndex + 1)
    imageAltText := jsSubstringTo l.title 100 ++ " - Image " ++ toString (imgIndex + 1)
    seoTitle := ""
    seoDescription := ""
    status := ""
    collection := ""
    costPerItem := "" }

/-- The rows one listing contributes to the Shopify export: its primary
row followed by one continuation row per image index
`1 ≤ imgIndex < min(image_urls.length, 10)` (the source's `for` loop). -/
def shopifyRowsForListing (l : MarketListing) (netMarginPercent : ℚ) : List ShopifyCSVRow :=
  let baseRow := listingToShopifyRow l netMarginPercent
  baseRow ::
    (List.range' 1 (min l.image_urls.length 10 - 1)).map
      (shopifyContinuationRow l baseRow.handle)

/-- The Shopify CSV header list (order exactly as in the source). -/
def shopifyHeaders : List String :=
  ["Handle", "Title", "Body (HTML)", "Vendor", "Product Category", "Type",
   "Tags", "Published", "Option1 Name", "Option1 Value", "Variant SKU",
   "Variant Grams", "Variant Inventory Tracker", "Variant Inventory Qty",
   "Variant Inventory Policy", "Variant Fulfillment Service", "Variant Price",
   "Variant Compare At Price", "Variant Requires Shipping", "Variant Taxable",
   "Variant Barcode", "Variant Weight Unit", "Image Src", "Image Position",
   "Image Alt Text", "SEO Title", "SEO Description", "Status", "Collection",
   "Cost per item"]

/-- The Shopify CSV text: header line, then for each listing its primary
row followed by its continuation rows. -/
def shopifyCSVText (listings : List MarketListing) (netMarginPercent : ℚ) : String :=
  let allRows := listings.flatMap (fun l => shopifyRowsForListing l netMarginPercent)
  String.intercalate "\n"
    (String.intercalate "," shopifyHeaders ::
      allRows.map (fun r => objectToCSVLine r.field shopifyHeaders))

/-- `exportToShopifyCSV(listingIds, netMarginPercent)`. -/
def exportToShopifyCSV (listingIds : List String) (netMarginPercent : ℚ)
    (fetched : Except Unit (List MarketListing)) (isoTimestamp : String) : ExportResult :=
  if listingIds.isEmpty then
    ⟨false, none, none, some "No listings selected for export"⟩
  else
    match fetched with
    | Except.error _ => ⟨false, none, none, some "Failed to export listings"⟩
    | Except.ok listings =>
      if listings.isEmpty then
        ⟨false, none, none, some "No listings found with the provided IDs"⟩
      else
        ⟨true, some (shopifyCSVText listings netMarginPercent),
          some ("shopify-products-" ++ sanitizeTimestamp isoTimestamp ++ ".csv"), none⟩

/-! ## Theorems settling the claims -/

/-- C1 (counterexample): in the spec's worked eBay scenario
(cost = 10,000 JPY × 0.0067 = $67, shipping $30, margin 25%) the engine
returns exactly 45620/331 ≈ $137.82 — more than six cents away from the
claimed ≈$137.89, and displayed as "137.82" by the two-decimal layer. -/
theorem claim_C1_counterexample :
    calculateSalePriceWithMargin (10000 * JPY_TO_USD_RATE) 25 30 = 45620 / 331
    ∧ 6 / 100 < |calculateSalePriceWithMargin (10000 * JPY_TO_USD_RATE) 25 30 - 13789 / 100|
    ∧ toFixed2 (calculateSalePriceWithMargin (10000 * JPY_TO_USD_RATE) 25 30) = "137.82" := by
  refine ⟨?_, ?_, ?_⟩
  · norm_num [calculateSalePriceWithMargin, JPY_TO_USD_RATE, EBAY_FINAL_VALUE_FEE,
      EBAY_PAYMENT_PROCESSING_PERCENT, EBAY_INTERNATIONAL_FEE, EBAY_PAYMENT_PROCESSING_FIXED]
  · rw [abs_sub_comm, abs_of_pos] <;>
      norm_num [calculateSalePriceWithMargin, JPY_TO_USD_RATE, EBAY_FINAL_VALUE_FEE,
        EBAY_PAYMENT_PROCESSING_PERCENT, EBAY_INTERNATIONAL_FEE, EBAY_PAYMENT_PROCESSING_FIXED]
  · have hp : calculateSalePriceWithMargin (10000 * JPY_TO_USD_RATE) 25 30 = 45620 / 331 := by
      norm_num [calculateSalePriceWithMargin, JPY_TO_USD_RATE, EBAY_FINAL_VALUE_FEE,
        EBAY_PAYMENT_PROCESSING_PERCENT, EBAY_INTERNATIONAL_FEE, EBAY_PAYMENT_PROCESSING_FIXED]
    have hr : round ((45620 / 331 : ℚ) * 100) = 13782 := by
      rw [round_eq]
      norm_num
    rw [hp]
    simp only [toFixed2, hr]
    decide

/-- C1 (amended): for every cost, shipping cost and margin percent (in
particular throughout the claimed ranges), `calculateSalePriceWithMargin`
returns exactly
`(cost + shippingCost + cost*(marginPercent/100) + 0.30) / (1 - (0.1325 + 0.0235 + 0.0165))`;
in the worked scenario the sale price is exactly 45620/331 ≈ $137.82 (not
$137.89). -/
theorem claim_C1_amended :
    (∀ cost shippingCost marginPercent : ℚ,
      calculateSalePriceWithMargin cost marginPercent shippingCost =
        (cost + shippingCost + cost * (marginPercent / 100) + 30 / 100) /
          (1 - (1325 / 10000 + 235 / 10000 + 165 / 10000)))
    ∧ calculateSalePriceWithMargin (10000 * JPY_TO_USD_RATE) 25 30 = 45620 / 331
    ∧ |calculateSalePriceWithMargin (10000 * JPY_TO_USD_RATE) 25 30 - 13782 / 100| < 1 / 100 := by
  refine ⟨fun cost shippingCost marginPercent => ?_, ?_, ?_⟩
  · norm_num [calculateSalePriceWithMargin, EBAY_FINAL_VALUE_FEE,
      EBAY_PAYMENT_PROCESSING_PERCENT, EBAY_INTERNATIONAL_FEE, EBAY_PAYMENT_PROCESSING_FIXED]
  · norm_num [calculateSalePriceWithMargin, JPY_TO_USD_RATE, EBAY_FINAL_VALUE_FEE,
      EBAY_PAYMENT_PROCESSING_PERCENT, EBAY_INTERNATIONAL_FEE, EBAY_PAYMENT_PROCESSING_FIXED]
  · rw [abs_of_pos] <;>
      norm_num [calculateSalePriceWithMargin, JPY_TO_USD_RATE, EBAY_FINAL_VALUE_FEE,
        EBAY_PAYMENT_PROCESSING_PERCENT, EBAY_INTERNATIONAL_FEE, EBAY_PAYMENT_PROCESSING_FIXED]

/-- C2: `calculateShopifyPrice` prices no shipping into the base (it takes
none): for every JPY cost and margin percent it returns exactly
`(costUSD + costUSD*(marginPercent/100) + 0.30) / (1 - 0.029)` with
`costUSD = costJPY * 0.0067`; the worked scenario (10,000 JPY, margin 25%)
gives exactly 84050/971, within half a cent of $86.56. -/
theorem claim_C2 :
    JPY_TO_USD_RATE = 67 / 10000
    ∧ (∀ costJPY marginPercent : ℚ,
        calculateShopifyPrice costJPY marginPercent =
          (costJPY * JPY_TO_USD_RATE + costJPY * JPY_TO_USD_RATE * (marginPercent / 100)
            + 30 / 100) / (1 - 29 / 1000))
    ∧ calculateShopifyPrice 10000 25 = 84050 / 971
    ∧ |calculateShopifyPrice 10000 25 - 8656 / 100| < 1 / 200 := by
  refine ⟨rfl, fun costJPY marginPercent => ?_, ?_, ?_⟩
  · norm_num [calculateShopifyPrice, SHOPIFY_PAYMENT_FEE_PERCENT, SHOPIFY_PAYMENT_FEE_FIXED]
  · norm_num [calculateShopifyPrice, JPY_TO_USD_RATE, SHOPIFY_PAYMENT_FEE_PERCENT,
      SHOPIFY_PAYMENT_FEE_FIXED]
  · rw [abs_of_pos] <;>
      norm_num [calculateShopifyPrice, JPY_TO_USD_RATE, SHOPIFY_PAYMENT_FEE_PERCENT,
        SHOPIFY_PAYMENT_FEE_FIXED]

/-- C3: both fee schedules are compile-time constants whose total
percentage fees are strictly below 1 (0.1725 and 0.029), so no input ever
reaches the pricing functions under a schedule with `totalPercentFees ≥ 1`
— the rejectable-error case the claim quantifies over is unreachable — and
for every input each pricing function returns the well-defined finite
solution of the fee equation (the denominator is a fixed positive
rational, so no Infinity/NaN price can arise or propagate into the CSV). -/
theorem claim_C3 :
    eBayTotalFeePercent < 1 ∧ SHOPIFY_PAYMENT_FEE_PERCENT < 1
    ∧ (0 : ℚ) < 1 - eBayTotalFeePercent ∧ (0 : ℚ) < 1 - SHOPIFY_PAYMENT_FEE_PERCENT
    ∧ (∀ cost marginPercent shippingCost : ℚ,
        calculateSalePriceWithMargin cost marginPercent shippingCost
            * (1 - eBayTotalFeePercent) =
          cost + shippingCost + cost * (marginPercent / 100) + EBAY_PAYMENT_PROCESSING_FIXED)
    ∧ (∀ costJPY marginPercent : ℚ,
        calculateShopifyPrice costJPY marginPercent * (1 - SHOPIFY_PAYMENT_FEE_PERCENT) =
          costJPY * JPY_TO_USD_RATE + costJPY * JPY_TO_USD_RATE * (marginPercent / 100)
            + SHOPIFY_PAYMENT_FEE_FIXED) := by
  refine ⟨by norm_num [eBayTotalFeePercent, EBAY_FINAL_VALUE_FEE,
      EBAY_PAYMENT_PROCESSING_PERCENT, EBAY_INTERNATIONAL_FEE],
    by norm_num [SHOPIFY_PAYMENT_FEE_PERCENT],
    by norm_num [eBayTotalFeePercent, EBAY_FINAL_VALUE_FEE,
      EBAY_PAYMENT_PROCESSING_PERCENT, EBAY_INTERNATIONAL_FEE],
    by norm_num [SHOPIFY_PAYMENT_FEE_PERCENT],
    fun cost marginPercent shippingCost => ?_, fun costJPY marginPercent => ?_⟩
  · rw [calculateSalePriceWithMargin, eBayTotalFeePercent]
    rw [div_mul_cancel₀]
    norm_num [EBAY_FINAL_VALUE_FEE, EBAY_PAYMENT_PROCESSING_PERCENT, EBAY_INTERNATIONAL_FEE]
  · rw [calculateShopifyPrice]
    rw [div_mul_cancel₀]
    norm_num [SHOPIFY_PAYMENT_FEE_PERCENT]

/-- C5 (counterexample): with cost 0 (a listing priced at 0 JPY), margins
0 and 500 — both inside the claimed range, with 0 < 500 — produce the same
sale price on both engines, so the claimed strict monotonicity fails. -/
theorem claim_C5_counterexample :
    calculateSalePriceWithMargin 0 0 30 = calculateSalePriceWithMargin 0 500 30
    ∧ ¬ calculateSalePriceWithMargin 0 0 30 < calculateSalePriceWithMargin 0 500 30
    ∧ calculateShopifyPrice 0 0 = calculateShopifyPrice 0 500
    ∧ (0 : ℚ) < 500 := by
  norm_num [calculateSalePriceWithMargin, calculateShopifyPrice, JPY_TO_USD_RATE,
    EBAY_FINAL_VALUE_FEE, EBAY_PAYMENT_PROCESSING_PERCENT, EBAY_INTERNATIONAL_FEE,
    EBAY_PAYMENT_PROCESSING_FIXED, SHOPIFY_PAYMENT_FEE_PERCENT, SHOPIFY_PAYMENT_FEE_FIXED]

/-- C5 (amended): for a strictly positive cost the sale price is strictly
monotone in the margin percent, on both engines, holding cost/shipping
fixed (at cost 0 it is constant, see the counterexample). -/
theorem claim_C5_amended (marginPercent₁ marginPercent₂ : ℚ)
    (h : marginPercent₁ < marginPercent₂) :
    (∀ cost shippingCost : ℚ, 0 < cost →
      calculateSalePriceWithMargin cost marginPercent₁ shippingCost <
        calculateSalePriceWithMargin cost marginPercent₂ shippingCost)
    ∧ (∀ costJPY : ℚ, 0 < costJPY →
        calculateShopifyPrice costJPY marginPercent₁ <
          calculateShopifyPrice costJPY marginPercent₂) := by
  constructor
  · intro cost shippingCost hc
    rw [calculateSalePriceWithMargin, calculateSalePriceWithMargin]
    have hd : (0 : ℚ) < 1 - (EBAY_FINAL_VALUE_FEE + EBAY_PAYMENT_PROCESSING_PERCENT
        + EBAY_INTERNATIONAL_FEE) := by
      norm_num [EBAY_FINAL_VALUE_FEE, EBAY_PAYMENT_PROCESSING_PERCENT, EBAY_INTERNATIONAL_FEE]
    apply div_lt_div_of_pos_right _ hd
    nlinarith
  · intro costJPY hc
    rw [calculateShopifyPrice, calculateShopifyPrice]
    have hd : (0 : ℚ) < 1 - SHOPIFY_PAYMENT_FEE_PERCENT := by
      norm_num [SHOPIFY_PAYMENT_FEE_PERCENT]
    have hcu : (0 : ℚ) < costJPY * JPY_TO_USD_RATE := by
      have : (0 : ℚ) < JPY_TO_USD_RATE := by norm_num [JPY_TO_USD_RATE]
      exact mul_pos hc this
    apply div_lt_div_of_pos_right _ hd
    nlinarith

/-- C5 (witness): the amended monotonicity at cost 1, shipping 0, margins
0 < 1. -/
theorem claim_C5_witness :
    calculateSalePriceWithMargin 1 0 0 < calculateSalePriceWithMargin 1 1 0 :=
  (claim_C5_amended 0 1 (by norm_num)).1 1 0 (by norm_num)

/-- C6: for every one of the seven niches, a condition rank that is absent
(or JS-falsy) or outside the recognized set {N,S,A,B,C,D,JUNK} maps to the
fallback `"3000"` (used/good, or pre-owned under the luxury strategy),
which is neither a new code (1000/1500/1750) nor the for-parts code 7000. -/
theorem claim_C6 (niche : String) (hn : niche ∈ nicheTypes) (rank : Option String)
    (hr : rank.getD "" ∉ conditionRanks) :
    mapToEBayCondition rank (some niche) = "3000"
    ∧ "3000" ∉ (["1000", "1500", "1750"] : List String) ∧ "3000" ≠ "7000" := by
  refine ⟨?_, by decide, by decide⟩
  cases rank with
  | none => fin_cases hn <;> rfl
  | some r =>
    have hr' : r ∉ conditionRanks := by simpa using hr
    rcases eq_or_ne r "" with rfl | hne
    · fin_cases hn <;> rfl
    · simp only [conditionRanks, List.mem_cons, List.not_mem_nil, or_false, not_or] at hr'
      obtain ⟨h1, h2, h3, h4, h5, h6, h7⟩ := hr'
      fin_cases hn <;>
        simp [mapToEBayCondition, NICHE_CONDITION_STRATEGY, CONDITION_MAPPINGS,
          STANDARD_CONDITION_MAP, LUXURY_CONDITION_MAP, RESTRICTED_CONDITION_MAP,
          hne, h1, h2, h3, h4, h5, h6, h7]

/-- C6 (witness): the WATCH niche with the unrecognized rank "Z". -/
theorem claim_C6_witness :
    ("WATCH" ∈ nicheTypes ∧ (some "Z" : Option String).getD "" ∉ conditionRanks)
    ∧ (mapToEBayCondition (some "Z") (some "WATCH") = "3000"
       ∧ "3000" ∉ (["1000", "1500", "1750"] : List String) ∧ "3000" ≠ "7000") :=
  ⟨⟨by decide, by decide⟩, claim_C6 "WATCH" (by decide) (some "Z") (by decide)⟩

/-- C10: under the LUXURY_ITEM niche every condition rank input —
recognized (including JUNK), unrecognized or absent — produces a
ConditionID in {1000, 1500, 1750, 3000}; in particular JUNK maps to 3000
(Pre-owned), never to the for-parts code 7000. -/
theorem claim_C10 :
    (∀ rank : Option String,
      mapToEBayCondition rank (some "LUXURY_ITEM")
        ∈ (["1000", "1500", "1750", "3000"] : List String))
    ∧ mapToEBayCondition (some "JUNK") (some "LUXURY_ITEM") = "3000"
    ∧ mapToEBayCondition (some "JUNK") (some "LUXURY_ITEM") ≠ "7000" := by
  refine ⟨?_, by decide, by decide⟩
  intro rank
  cases rank with
  | none => decide
  | some r =>
    have hred : mapToEBayCondition (some r) (some "LUXURY_ITEM")
        = if r = "" then "3000" else (LUXURY_CONDITION_MAP r).getD "3000" := rfl
    rw [hred]
    simp only [LUXURY_CONDITION_MAP]
    split_ifs <;> simp

/-- Mapping a character-wise function over both sides preserves the list
infix relation. -/
lemma List.IsInfix.map_char (f : Char → Char) (pat l : List Char) (h : pat <:+: l) :
    pat.map f <:+: l.map f := by
  obtain ⟨s, t, rfl⟩ := h
  exact ⟨s.map f, t.map f, by simp⟩

/-- C7 (counterexample): `'navy'` maps to `'Blue'` in the keyword table —
the very value the generic `'blue'` keyword produces — so the claimed
distinct value does not exist: a navy title and a blue title infer the
same color. -/
theorem claim_C7_counterexample :
    determineColor none (some "navy tote") = "Blue"
    ∧ determineColor none (some "plain blue tote") = "Blue"
    ∧ determineColor none (some "navy tote") = determineColor none (some "plain blue tote") := by
  refine ⟨?_, ?_, ?_⟩ <;> decide

/-- C7 (amended): the keyword table is matched in its preserved source
order with `navy` as the very first entry, so it is checked before the
generic `blue` could match, and every title containing "navy" infers the
navy keyword's value `"Blue"` — which is the same value the `blue` keyword
carries, not a distinct one. -/
theorem claim_C7_amended (brand : Option String) (title : String)
    (h : "navy".toList <:+: title.toList) :
    determineColor brand (some title) = "Blue"
    ∧ colorPatterns.headD ("", "") = ("navy", "Blue")
    ∧ ("blue", "Blue") ∈ colorPatterns := by
  refine ⟨?_, by decide, by decide⟩
  have hnavy : "navy".toList.map Char.toLower = "navy".toList := by decide
  have h4 : "navy".toList <:+: title.toList.map Char.toLower :=
    hnavy ▸ List.IsInfix.map_char Char.toLower "navy".toList title.toList h
  have h2 : jsIncludes (jsToLower title) "navy" = true :=
    decide_eq_true (show "navy".toList <:+: (jsToLower title).toList from h4)
  have h3 : colorPatterns.find? (fun p => jsIncludes (jsToLower title) p.1)
      = some ("navy", "Blue") := by
    simp only [colorPatterns]
    rw [List.find?_cons_of_pos]
    exact h2
  simp [determineColor, h3]

/-- C7 (witness): the amended theorem at a concrete navy-containing title. -/
theorem claim_C7_witness :
    ("navy".toList <:+: "Chanel navy shoulder bag".toList)
    ∧ determineColor (some "Chanel") (some "Chanel navy shoulder bag") = "Blue"
    ∧ colorPatterns.headD ("", "") = ("navy", "Blue")
    ∧ ("blue", "Blue") ∈ colorPatterns :=
  ⟨by decide,
    claim_C7_amended (some "Chanel") "Chanel navy shoulder bag" (by decide)⟩

/-- Collapsing doubled quotes after a non-quote head character proceeds
past it. -/
lemma undoubleQuotesL_cons_ne (c : Char) (hc : c ≠ '"') (xs : List Char) :
    undoubleQuotesL (c :: xs) = c :: undoubleQuotesL xs := by
  cases xs with
  | nil => rfl
  | cons d ds => simp [undoubleQuotesL, hc]

/-- Collapsing doubled quotes inverts doubling. -/
lemma undoubleQuotesL_doubleQuotesL (l : List Char) :
    undoubleQuotesL (doubleQuotesL l) = l := by
  induction l with
  | nil => rfl
  | cons c cs ih =>
    by_cases hc : c = '"'
    · subst hc
      simp [doubleQuotesL, undoubleQuotesL, ih]
    · rw [doubleQuotesL, if_neg hc, undoubleQuotesL_cons_ne c hc, ih]

/-- C9: a field value is quote-wrapped with internal quotes doubled if and
only if it contains a comma, a double-quote or a newline (emitted bare
otherwise) — and serializing any value then re-reading the emitted field
with the standard CSV reader returns the original value exactly.  The last
conjunct ties the field serializer to `objectToCSVLine` (a one-header line
is exactly the escaped field). -/
theorem claim_C9 :
    (∀ s : String,
      (needsCSVQuoting s = true ∧ escapeCSVValue s = "\"" ++ jsReplaceQuotes s ++ "\"")
      ∨ (needsCSVQuoting s = false ∧ escapeCSVValue s = s))
    ∧ (∀ s : String, readCSVField (escapeCSVValue s) = s)
    ∧ (∀ v : String, objectToCSVLine (fun _ => v) ["Handle"] = escapeCSVValue v) := by
  refine ⟨fun s => ?_, fun s => ?_, fun v => ?_⟩
  · by_cases h : needsCSVQuoting s = true
    · exact Or.inl ⟨h, by simp [escapeCSVValue, h]⟩
    · have h' : needsCSVQuoting s = false := by simpa using h
      exact Or.inr ⟨h', by simp [escapeCSVValue, h']⟩
  · by_cases h : needsCSVQuoting s = true
    · have he : escapeCSVValue s = "\"" ++ jsReplaceQuotes s ++ "\"" := by
        simp [escapeCSVValue, h]
      have htl : (escapeCSVValue s).data = '"' :: (doubleQuotesL s.toList ++ ['"']) := by
        rw [he]; rfl
      have hm : readCSVField (escapeCSVValue s)
          = String.mk (undoubleQuotesL ((doubleQuotesL s.toList ++ ['"']).dropLast)) := by
        simp only [readCSVField, String.toList]
        rw [htl]
        simp
      rw [hm, List.dropLast_concat, undoubleQuotesL_doubleQuotesL]
      exact String.asString_toList s
    · have h' : needsCSVQuoting s = false := by simpa using h
      have he : escapeCSVValue s = s := by simp [escapeCSVValue, h']
      rw [he]
      cases hl : s.data with
      | nil =>
        simp only [readCSVField, String.toList]
        rw [hl]
      | cons c rest =>
        have hc : c ≠ '"' := by
          intro hceq
          subst hceq
          simp [needsCSVQuoting] at h'
          exact h'.1.2 (by rw [hl]; exact List.mem_cons_self _ _)
        simp only [readCSVField, String.toList]
        rw [hl]
        simp [hc]
  · simp [objectToCSVLine, String.intercalate, String.intercalate.go]

/-- Exactly-one-of invariant of an export result: a success carries csv
and filename and no error; a failure carries an error and neither csv nor
filename. -/
def exactlyOnePopulated (r : ExportResult) : Prop :=
  (r.success = true ∧ r.csv.isSome ∧ r.filename.isSome ∧ r.error = none)
  ∨ (r.success = false ∧ r.csv = none ∧ r.filename = none ∧ r.error.isSome)

/-- C4: both export orchestrators are total functions into the
`{success, csv?, filename?, error?}` shape (no exception crosses the
boundary; the collaborator outcome is the `Except` argument): an empty ID
list yields the distinct "No listings selected" error, a zero-match lookup
the distinct "No listings found" error, a collaborator failure the generic
"Failed to export listings" error, every success carries both CSV text and
a filename, and in every case exactly one of (csv and filename) or (error)
is populated. -/
theorem claim_C4 :
    (∀ (m : ℚ) (fetched : Except Unit (List MarketListing)) (ts : String),
      exportToEBayCSV [] m fetched ts
        = ⟨false, none, none, some "No listings selected for export"⟩
      ∧ exportToShopifyCSV [] m fetched ts
        = ⟨false, none, none, some "No listings selected for export"⟩)
    ∧ (∀ (i : String) (ids : List String) (m : ℚ) (ts : String),
        exportToEBayCSV (i :: ids) m (Except.ok []) ts
          = ⟨false, none, none, some "No listings found with the provided IDs"⟩
        ∧ exportToShopifyCSV (i :: ids) m (Except.ok []) ts
          = ⟨false, none, none, some "No listings found with the provided IDs"⟩)
    ∧ (∀ (i : String) (ids : List String) (m : ℚ) (e : Unit) (ts : String),
        exportToEBayCSV (i :: ids) m (Except.error e) ts
          = ⟨false, none, none, some "Failed to export listings"⟩
        ∧ exportToShopifyCSV (i :: ids) m (Except.error e) ts
          = ⟨false, none, none, some "Failed to export listings"⟩)
    ∧ (∀ (i : String) (ids : List String) (m : ℚ) (l : MarketListing)
        (ls : List MarketListing) (ts : String),
        exportToEBayCSV (i :: ids) m (Except.ok (l :: ls)) ts
          = ⟨true, some (ebayCSVText (l :: ls) m),
              some ("ebay-listings-" ++ sanitizeTimestamp ts ++ ".csv"), none⟩
        ∧ exportToShopifyCSV (i :: ids) m (Except.ok (l :: ls)) ts
          = ⟨true, some (shopifyCSVText (l :: ls) m),
              some ("shopify-products-" ++ sanitizeTimestamp ts ++ ".csv"), none⟩)
    ∧ (∀ (ids : List String) (m : ℚ) (fetched : Except Unit (List MarketListing))
        (ts : String),
        exactlyOnePopulated (exportToEBayCSV ids m fetched ts)
        ∧ exactlyOnePopulated (exportToShopifyCSV ids m fetched ts))
    ∧ "No listings selected for export" ≠ "No listings found with the provided IDs" := by
  refine ⟨?_, ?_, ?_, ?_, ?_, by decide⟩
  · intro m fetched ts
    exact ⟨rfl, rfl⟩
  · intro i ids m ts
    exact ⟨by simp [exportToEBayCSV], by simp [exportToShopifyCSV]⟩
  · intro i ids m e ts
    exact ⟨by simp [exportToEBayCSV], by simp [exportToShopifyCSV]⟩
  · intro i ids m l ls ts
    exact ⟨by simp [exportToEBayCSV], by simp [exportToShopifyCSV]⟩
  · intro ids m fetched ts
    cases ids with
    | nil =>
      exact ⟨Or.inr (by simp [exportToEBayCSV, exactlyOnePopulated]),
        Or.inr (by simp [exportToShopifyCSV, exactlyOnePopulated])⟩
    | cons i is =>
      cases fetched with
      | error e =>
        exact ⟨Or.inr (by simp [exportToEBayCSV, exactlyOnePopulated]),
          Or.inr (by simp [exportToShopifyCSV, exactlyOnePopulated])⟩
      | ok listings =>
        cases listings with
        | nil =>
          exact ⟨Or.inr (by simp [exportToEBayCSV, exactlyOnePopulated]),
            Or.inr (by simp [exportToShopifyCSV, exactlyOnePopulated])⟩
        | cons l ls =>
          exact ⟨Or.inl (by simp [exportToEBayCSV, exactlyOnePopulated]),
            Or.inl (by simp [exportToShopifyCSV, exactlyOnePopulated])⟩

/-- The 26 non-Handle non-image fields of a Shopify row, all required to
be the empty string on a continuation row. -/
def contRowBlankFields (r : ShopifyCSVRow) : Prop :=
  r.title = "" ∧ r.bodyHTML = "" ∧ r.vendor = "" ∧ r.productCategory = ""
  ∧ r.ptype = "" ∧ r.tags = "" ∧ r.published = "" ∧ r.option1Name = ""
  ∧ r.option1Value = "" ∧ r.variantSKU = "" ∧ r.variantGrams = ""
  ∧ r.variantInventoryTracker = "" ∧ r.variantInventoryQty = ""
  ∧ r.variantInventoryPolicy = "" ∧ r.variantFulfillmentService = ""
  ∧ r.variantPrice = "" ∧ r.variantCompareAtPrice = ""
  ∧ r.variantRequiresShipping = "" ∧ r.variantTaxable = ""
  ∧ r.variantBarcode = "" ∧ r.variantWeightUnit = ""
  ∧ r.seoTitle = "" ∧ r.seoDescription = "" ∧ r.status = ""
  ∧ r.collection = "" ∧ r.costPerItem = ""

/-- C8: a listing with at least one image contributes its primary row
followed by exactly `min(n, 10) - 1` continuation rows (images beyond the
tenth are dropped); continuation row `k` carries the primary row's Handle,
the `(k+1)`-th image URL at position `k+2` with its alt text, and the
empty string in every other field. -/
theorem claim_C8 (l : MarketListing) (m : ℚ) (h : l.image_urls ≠ []) :
    ∃ cont : List ShopifyCSVRow,
      shopifyRowsForListing l m = listingToShopifyRow l m :: cont
      ∧ cont.length = min l.image_urls.length 10 - 1
      ∧ 1 ≤ min l.image_urls.length 10
      ∧ ∀ (k : Nat) (hk : k < cont.length),
          (cont.get ⟨k, hk⟩).handle = (listingToShopifyRow l m).handle
          ∧ (cont.get ⟨k, hk⟩).imageSrc = l.image_urls.getD (k + 1) ""
          ∧ (cont.get ⟨k, hk⟩).imagePosition = toString (k + 2)
          ∧ (cont.get ⟨k, hk⟩).imageAltText
              = jsSubstringTo l.title 100 ++ " - Image " ++ toString (k + 2)
          ∧ contRowBlankFields (cont.get ⟨k, hk⟩) := by
  refine ⟨(List.range' 1 (min l.image_urls.length 10 - 1)).map
      (shopifyContinuationRow l (listingToShopifyRow l m).handle), rfl, by simp, ?_, ?_⟩
  · have := List.length_pos.mpr h
    omega
  intro k hk
  have hget : ((List.range' 1 (min l.image_urls.length 10 - 1)).map
      (shopifyContinuationRow l (listingToShopifyRow l m).handle)).get ⟨k, hk⟩
      = shopifyContinuationRow l (listingToShopifyRow l m).handle (1 + k) := by
    simp [List.getElem_map, List.getElem_range']
  rw [hget]
  have hk1 : 1 + k = k + 1 := Nat.add_comm 1 k
  have hk2 : 1 + k + 1 = k + 2 := by omega
  refine ⟨rfl, by rw [shopifyContinuationRow, hk1], by rw [shopifyContinuationRow, hk2],
    by rw [shopifyContinuationRow, hk2], ?_⟩
  exact ⟨rfl, rfl, rfl, rfl, rfl, rfl, rfl, rfl, rfl, rfl, rfl, rfl, rfl,
    rfl, rfl, rfl, rfl, rfl, rfl, rfl, rfl, rfl, rfl, rfl, rfl, rfl⟩

/-- A sample listing with five image URLs for the C8 witness. -/
def sampleListing : MarketListing :=
  { _id := "65f0c2a1b3d4e5f607081920"
    title := "Omega Speedmaster"
    price_jpy := 10000
    image_urls := ["u1", "u2", "u3", "u4", "u5"]
    niche_type := "WATCH"
    attributes := emptyAttributes }

/-- C8 (witness): the five-image sample listing — one primary plus four
continuation rows. -/
theorem claim_C8_witness :
    sampleListing.image_urls ≠ []
    ∧ (shopifyRowsForListing sampleListing 25).length = 1 + 4
    ∧ (∃ cont : List ShopifyCSVRow,
        shopifyRowsForListing sampleListing 25 = listingToShopifyRow sampleListing 25 :: cont
        ∧ cont.length = min sampleListing.image_urls.length 10 - 1
        ∧ 1 ≤ min sampleListing.image_urls.length 10
        ∧ ∀ (k : Nat) (hk : k < cont.length),
            (cont.get ⟨k, hk⟩).handle = (listingToShopifyRow sampleListing 25).handle
            ∧ (cont.get ⟨k, hk⟩).imageSrc = sampleListing.image_urls.getD (k + 1) ""
            ∧ (cont.get ⟨k, hk⟩).imagePosition = toString (k + 2)
            ∧ (cont.get ⟨k, hk⟩).imageAltText
                = jsSubstringTo sampleListing.title 100 ++ " - Image " ++ toString (k + 2)
            ∧ contRowBlankFields (cont.get ⟨k, hk⟩)) :=
  ⟨by simp [sampleListing], by simp [shopifyRowsForListing, sampleListing],
    claim_C8 sampleListing 25 (by simp [sampleListing])⟩

end VeloData
